import Mathlib

/-!
Verification of the Sai Silicon Valley visitor management system.

The definitions below are a shallow embedding of the repository's code:

* the Express/PostgreSQL REST server (`server.js`): routes over a relational
  store of flats, residents and visitor requests, modelled as pure functions
  `DB → ... → ApiResult _ × DB`;
* the browser client (`app.js`, both the Supabase variant and the Neon/REST
  variant, whose relevant logic is identical): form submission, the offline
  queue, its drain on reconnect, and the constructor's initial state.

Machine timestamps (`NOW()`, `new Date().toISOString()`) are modelled as `Nat`
values passed in explicitly; SQL `NULL`able columns are `Option` fields; a JS
falsy check on a required string field (`!visitor_name`) is an equality test
against the empty string.
-/

namespace SaiSiliconValley

/-- Row of the `flats` table (supabase_setup.sql): id, wing, flat_number and
the derived unique `flat_code`. -/
structure Flat where
  id : Nat
  wing : String
  flat_number : Nat
  flat_code : String
deriving DecidableEq, Repr

/-- Row of the `residents` table (supabase_setup.sql, fixed schema):
phone is the lookup key of the auth route; `last_login` / `updated_at`
are nullable timestamps. -/
structure Resident where
  id : Nat
  phone : String
  email : String
  flat_id : Nat
  role : String
  last_login : Option Nat
  updated_at : Option Nat
deriving DecidableEq, Repr

/-- Row of the `visitor_requests` table (supabase_setup.sql, fixed schema).
`status` is the string column checked against
'pending' / 'approved' / 'denied' / 'completed'; the timestamp and actor
columns are nullable. -/
structure VisitorRequest where
  id : Nat
  guard_id : String
  flat_id : Nat
  visitor_name : String
  photo_url : String
  vehicle_number : Option String
  vehicle_type : Option String
  purpose : String
  status : String
  entry_time : Option Nat
  approved_by : Option Nat
  approved_at : Option Nat
  denied_at : Option Nat
  denied_by : Option Nat
  created_at : Nat
  updated_at : Nat
deriving DecidableEq, Repr

/-- The relational store behind the REST server: the three tables, plus
counters standing in for the database's id generation (SERIAL / uuid). -/
structure DB where
  flats : List Flat
  residents : List Resident
  visitor_requests : List VisitorRequest
  nextResidentId : Nat
  nextRequestId : Nat
deriving DecidableEq, Repr

/-- Outcome of a REST route: `ok` is a 200 `{success:true,data}` response,
`badRequest` a 400 and `notFound` a 404 `{success:false,error}` response. -/
inductive ApiResult (α : Type) where
  | ok (data : α)
  | badRequest (error : String)
  | notFound (error : String)
deriving DecidableEq, Repr

/-- `SELECT * FROM flats WHERE flat_code = $1` (first row). -/
def findFlatByCode (db : DB) (flatCode : String) : Option Flat :=
  db.flats.find? (fun f => f.flat_code == flatCode)

/-- Body of `POST /api/visitor-requests` (server.js lines 168-216).
Required string fields are plain strings, with the empty string standing for
a missing/falsy value, mirroring `!visitor_name || !flatCode || !photo_url`. -/
structure SubmitBody where
  visitor_name : String
  vehicle_type : Option String
  vehicle_number : Option String
  purpose : String
  flatCode : String
  photo_url : String
  guard_id : String
deriving DecidableEq, Repr

/-- The row built by the INSERT of `POST /api/visitor-requests`: the body's
fields plus `status = 'pending'`; entry_time / approved_at / denied_at and
the actor columns take their NULL defaults, created_at / updated_at default
to NOW(). -/
def insertedRow (db : DB) (b : SubmitBody) (flat : Flat) (now : Nat) :
    VisitorRequest :=
  { id := db.nextRequestId
    guard_id := b.guard_id
    flat_id := flat.id
    visitor_name := b.visitor_name
    photo_url := b.photo_url
    vehicle_number := b.vehicle_number
    vehicle_type := b.vehicle_type
    purpose := b.purpose
    status := "pending"
    entry_time := none
    approved_by := none
    approved_at := none
    denied_at := none
    denied_by := none
    created_at := now
    updated_at := now }

/-- `POST /api/visitor-requests` (server.js lines 168-216): validate the three
required fields (`!visitor_name || !flatCode || !photo_url` gives a 400),
resolve the flat code (unknown code gives a 400), and insert a pending
row. -/
def postVisitorRequests (db : DB) (b : SubmitBody) (now : Nat) :
    ApiResult VisitorRequest × DB :=
  if b.visitor_name == "" || b.flatCode == "" || b.photo_url == "" then
    (.badRequest "Visitor name, flat code, and photo are required", db)
  else
    match findFlatByCode db b.flatCode with
    | none => (.badRequest "Invalid flat code", db)
    | some flat =>
      (.ok (insertedRow db b flat now),
        { db with
            visitor_requests := db.visitor_requests ++ [insertedRow db b flat now]
            nextRequestId := db.nextRequestId + 1 })

/-- The SET clause of the approve route's UPDATE: stamp status, approved_at,
approved_by, updated_at; nothing else (in particular `denied_at` is kept). -/
def applyApprove (actor : Option Nat) (now : Nat) (r : VisitorRequest) :
    VisitorRequest :=
  { r with status := "approved", approved_at := some now,
           approved_by := actor, updated_at := now }

/-- The SET clause of the deny route's UPDATE: stamp status, denied_at,
denied_by, updated_at; `approved_at` is kept. -/
def applyDeny (actor : Option Nat) (now : Nat) (r : VisitorRequest) :
    VisitorRequest :=
  { r with status := "denied", denied_at := some now,
           denied_by := actor, updated_at := now }

/-- The SET clause of the entry route's UPDATE: stamp entry_time, set status
to 'completed', bump updated_at. -/
def applyEntry (now : Nat) (r : VisitorRequest) : VisitorRequest :=
  { r with entry_time := some now, status := "completed", updated_at := now }

/-- `PUT /api/visitor-requests/:id/approve` (server.js lines 278-300):
`UPDATE visitor_requests SET status='approved', approved_at=NOW(),
approved_by=$1, updated_at=NOW() WHERE id=$2 RETURNING *` — the WHERE clause
matches on id only, with no condition on the current status; a 404 is
returned exactly when no row has that id. -/
def approveRoute (db : DB) (id : Nat) (actor : Option Nat) (now : Nat) :
    ApiResult VisitorRequest × DB :=
  let table := db.visitor_requests.map
    (fun r => if r.id == id then applyApprove actor now r else r)
  match table.filter (fun r => r.id == id) with
  | [] => (.notFound "Request not found", db)
  | r :: _ => (.ok r, { db with visitor_requests := table })

/-- `PUT /api/visitor-requests/:id/deny` (server.js lines 303-325): same
shape as the approve route, stamping denied_at / denied_by. -/
def denyRoute (db : DB) (id : Nat) (actor : Option Nat) (now : Nat) :
    ApiResult VisitorRequest × DB :=
  let table := db.visitor_requests.map
    (fun r => if r.id == id then applyDeny actor now r else r)
  match table.filter (fun r => r.id == id) with
  | [] => (.notFound "Request not found", db)
  | r :: _ => (.ok r, { db with visitor_requests := table })

/-- `PUT /api/visitor-requests/:id/entry` (server.js lines 328-349):
`UPDATE visitor_requests SET entry_time=NOW(), status='completed',
updated_at=NOW() WHERE id=$1 RETURNING *` — again no condition on the current
status; 404 exactly when the id is absent. -/
def entryRoute (db : DB) (id : Nat) (now : Nat) :
    ApiResult VisitorRequest × DB :=
  let table := db.visitor_requests.map
    (fun r => if r.id == id then applyEntry now r else r)
  match table.filter (fun r => r.id == id) with
  | [] => (.notFound "Request not found", db)
  | r :: _ => (.ok r, { db with visitor_requests := table })

/-- `POST /api/residents/auth` (server.js lines 75-139): validate the three
fields, resolve the flat, then upsert on phone — update the existing row's
email / flat_id / last_login / updated_at if a resident with that phone
exists, otherwise insert a new resident row. -/
def postResidentsAuth (db : DB) (phone email flatCode : String) (now : Nat) :
    ApiResult Resident × DB :=
  if phone == "" || email == "" || flatCode == "" then
    (.badRequest "Phone, email, and flat code are required", db)
  else
    match findFlatByCode db flatCode with
    | none => (.badRequest "Invalid flat code", db)
    | some flat =>
      match db.residents.find? (fun r => r.phone == phone) with
      | some existing =>
        let updated := { existing with
                           email := email, flat_id := flat.id,
                           last_login := some now, updated_at := some now }
        let residents := db.residents.map
          (fun r => if r.phone == phone then
              { r with email := email, flat_id := flat.id,
                       last_login := some now, updated_at := some now }
            else r)
        (.ok updated, { db with residents := residents })
      | none =>
        let created : Resident :=
          { id := db.nextResidentId
            phone := phone
            email := email
            flat_id := flat.id
            role := "resident"
            last_login := some now
            updated_at := none }
        (.ok created, { db with
                          residents := db.residents ++ [created]
                          nextResidentId := db.nextResidentId + 1 })

/-- A lifecycle operation against the visitor-request store: one call to the
submit, approve, deny or allow-entry route. -/
inductive Op where
  | submit (b : SubmitBody) (now : Nat)
  | approve (id : Nat) (actor : Option Nat) (now : Nat)
  | deny (id : Nat) (actor : Option Nat) (now : Nat)
  | entry (id : Nat) (now : Nat)
deriving DecidableEq, Repr

/-- Effect of one lifecycle operation on the store (the route's database
side, discarding the HTTP response). -/
def applyOp (db : DB) : Op → DB
  | .submit b now => (postVisitorRequests db b now).2
  | .approve id actor now => (approveRoute db id actor now).2
  | .deny id actor now => (denyRoute db id actor now).2
  | .entry id now => (entryRoute db id now).2

/-- Effect of a sequence of lifecycle operations, applied left to right. -/
def applyOps (db : DB) : List Op → DB
  | [] => db
  | op :: ops => applyOps (applyOp db op) ops

/-- Does the operation list contain an approve call for this request id? -/
def containsApprove (ops : List Op) (id : Nat) : Bool :=
  ops.any (fun o => match o with
    | .approve i _ _ => i == id
    | _ => false)

/-- Does the operation list contain a deny call for this request id? -/
def containsDeny (ops : List Op) (id : Nat) : Bool :=
  ops.any (fun o => match o with
    | .deny i _ _ => i == id
    | _ => false)

/-! ## Client model (app.js)

Both client variants share the logic relevant to the claims: the guard form
and photo state, the offline queue and its `visitorAppOfflineQueue`
localStorage copy, `submitVisitorRequest`, `processOfflineQueue`, and the
`online` listener. The remote side visible to the client is the flats table
plus the inserted visitor-request payloads. -/

/-- Payload assembled by `submitVisitorRequest` (app.js lines 869-878):
`vehicleType || null`, `vehicleNumber || null`, `purpose || 'Other'`,
`status: 'pending'`, `guard_id: 'guard-1'`. -/
structure RequestData where
  visitor_name : String
  vehicle_type : Option String
  vehicle_number : Option String
  purpose : String
  flat_id : Nat
  photo_url : String
  status : String
  guard_id : String
deriving DecidableEq, Repr

/-- The guard intake form's fields as read in `submitVisitorRequest`
(app.js lines 849-853). -/
structure FormState where
  visitorName : String
  vehicleType : String
  vehicleNumber : String
  purposeOfVisit : String
  flatSelect : String
deriving DecidableEq, Repr

/-- `document.getElementById('visitorForm').reset()`: all fields back to
their empty defaults. -/
def emptyForm : FormState :=
  { visitorName := "", vehicleType := "", vehicleNumber := "",
    purposeOfVisit := "", flatSelect := "" }

/-- The durable browser storage the client touches for the offline queue:
the `visitorAppOfflineQueue` key (`none` = key absent). -/
structure LocalStorage where
  visitorAppOfflineQueue : Option (List RequestData)
deriving DecidableEq, Repr

/-- Client-side state: connectivity flag, in-memory offline queue, its
localStorage copy, the captured photo, the cached flats list, and the remote
store as seen by the client (flats table and inserted request payloads). -/
structure ClientState where
  isOnline : Bool
  offlineQueue : List RequestData
  storage : LocalStorage
  currentPhoto : Option String
  form : FormState
  flatsList : List Flat
  dbFlats : List Flat
  dbRequests : List RequestData
deriving DecidableEq, Repr

/-- JS `String.prototype.trim()`: strip leading and trailing whitespace
(modelled directly over the character list so that it evaluates). -/
def jsTrim (s : String) : String :=
  String.mk
    (((s.data.dropWhile Char.isWhitespace).reverse.dropWhile
        Char.isWhitespace).reverse)

/-- JS falsy check on `this.currentPhoto` (`null` or empty string). -/
def photoFalsy : Option String → Bool
  | none => true
  | some s => s == ""

/-- `getFlatByCode` (app.js lines 106-124): when online, query the flats
table by code; on failure (no such row) fall back to the cached
`flatsList`; when offline, use the cache directly. -/
def getFlatByCode (online : Bool) (dbFlats cache : List Flat)
    (code : String) : Option Flat :=
  if online then
    match dbFlats.find? (fun f => f.flat_code == code) with
    | some f => some f
    | none => cache.find? (fun f => f.flat_code == code)
  else cache.find? (fun f => f.flat_code == code)

/-- Outcome reported to the guard by `submitVisitorRequest`: the success
notification ('Request sent successfully!'), the offline-queue notification
('Request queued (offline mode)'), or the catch branch's error
notification. -/
inductive SubmitResult where
  | sent
  | queued
  | error (msg : String)
deriving DecidableEq, Repr

/-- The `requestData` object assembled by `submitVisitorRequest` (app.js
lines 869-878) from the trimmed form fields, the resolved flat and the
captured photo: `vehicleType || null`, trimmed `vehicleNumber || null`,
trimmed `purpose || 'Other'`, `status: 'pending'`, `guard_id: 'guard-1'`. -/
def builtRequestData (s : ClientState) (flat : Flat) : RequestData :=
  { visitor_name := jsTrim s.form.visitorName
    vehicle_type :=
      if s.form.vehicleType == "" then none else some s.form.vehicleType
    vehicle_number :=
      if jsTrim s.form.vehicleNumber == "" then none
      else some (jsTrim s.form.vehicleNumber)
    purpose :=
      if jsTrim s.form.purposeOfVisit == "" then "Other"
      else jsTrim s.form.purposeOfVisit
    flat_id := flat.id
    photo_url := s.currentPhoto.getD ""
    status := "pending"
    guard_id := "guard-1" }

/-- `submitVisitorRequest` (app.js lines 839-918; Neon variant 2140-2207 is
identical in all respects modelled here): read and trim the form fields,
validate name/flat/photo, resolve the flat, build the payload; when online
insert it into the store (`gatewayOk` models whether the insert succeeds —
a rejected insert throws into the catch branch), when offline append it to
the offline queue and write the queue to localStorage; only after a
successful insert or enqueue reset the form and drop the captured photo. -/
def submitVisitorRequest (s : ClientState) (gatewayOk : Bool) :
    SubmitResult × ClientState :=
  if jsTrim s.form.visitorName == "" || s.form.flatSelect == "" then
    (.error "Please fill all required fields", s)
  else if photoFalsy s.currentPhoto then
    (.error "Please take a visitor photo", s)
  else
    match getFlatByCode s.isOnline s.dbFlats s.flatsList s.form.flatSelect with
    | none => (.error "Invalid flat selection", s)
    | some flat =>
      if s.isOnline then
        if gatewayOk then
          (.sent, { s with
                      dbRequests := s.dbRequests ++ [builtRequestData s flat]
                      currentPhoto := none
                      form := emptyForm })
        else
          (.error "Database error", s)
      else
        (.queued, { s with
                      offlineQueue := s.offlineQueue ++ [builtRequestData s flat]
                      storage :=
                        ⟨some (s.offlineQueue ++ [builtRequestData s flat])⟩
                      currentPhoto := none
                      form := emptyForm })

/-- `processOfflineQueue` (app.js lines 1339-1361; Neon variant 2531-2551):
bail out when offline or the queue is empty; otherwise attempt to insert
each queued item in order, catching and logging per-item failures
(`ok` models whether the gateway accepts a given item); after the loop,
unconditionally reset the in-memory queue to `[]` and remove the
`visitorAppOfflineQueue` key. -/
def processOfflineQueue (s : ClientState) (ok : RequestData → Bool) :
    ClientState :=
  if !s.isOnline || s.offlineQueue.isEmpty then s
  else
    { s with
        dbRequests := s.dbRequests ++ s.offlineQueue.filter ok
        offlineQueue := []
        storage := { visitorAppOfflineQueue := none } }

/-- The `online` listener installed by `setupNetworkListeners` (app.js lines
330-341): set `isOnline` and drain the offline queue. -/
def handleOnlineEvent (s : ClientState) (ok : RequestData → Bool) :
    ClientState :=
  processOfflineQueue { s with isOnline := true } ok

/-- The `VisitorManagementApp` constructor (app.js lines 3-18; Neon variant
1461-1474): the in-memory state starts with `offlineQueue = []` and no
captured photo. Neither the constructor nor `init()` (lines 41-66) reads the
`visitorAppOfflineQueue` key, so the `storage` argument does not flow into
the queue. -/
def newAppState (storage : LocalStorage) (online : Bool) : ClientState :=
  { isOnline := online
    offlineQueue := []
    storage := storage
    currentPhoto := none
    form := emptyForm
    flatsList := []
    dbFlats := []
    dbRequests := [] }

/-- Is the route result a 200 success? -/
def ApiResult.isOk {α : Type} : ApiResult α → Bool
  | .ok _ => true
  | _ => false

/-! ## Generic facts about the UPDATE-by-id routes

The approve, deny and entry routes share one shape: an SQL UPDATE whose
WHERE clause matches on id only, returning 404 exactly when no row matched.
`sqlUpdateById` is that common shape; each route is definitionally equal to
it at its own SET clause, which the `*_eq` lemmas record. -/

/-- The rewritten request table of an UPDATE-by-id with SET clause `f`. -/
def updatedTable (f : VisitorRequest → VisitorRequest) (db : DB) (id : Nat) :
    List VisitorRequest :=
  db.visitor_requests.map (fun r => if r.id == id then f r else r)

/-- Common shape of the three status-update routes. -/
def sqlUpdateById (f : VisitorRequest → VisitorRequest) (db : DB) (id : Nat) :
    ApiResult VisitorRequest × DB :=
  match (updatedTable f db id).filter (fun r => r.id == id) with
  | [] => (.notFound "Request not found", db)
  | r :: _ => (.ok r, { db with visitor_requests := updatedTable f db id })

lemma approveRoute_eq (db : DB) (id : Nat) (actor : Option Nat) (now : Nat) :
    approveRoute db id actor now = sqlUpdateById (applyApprove actor now) db id := rfl

lemma denyRoute_eq (db : DB) (id : Nat) (actor : Option Nat) (now : Nat) :
    denyRoute db id actor now = sqlUpdateById (applyDeny actor now) db id := rfl

lemma entryRoute_eq (db : DB) (id : Nat) (now : Nat) :
    entryRoute db id now = sqlUpdateById (applyEntry now) db id := rfl

lemma applyApprove_id (actor : Option Nat) (now : Nat) (r : VisitorRequest) :
    (applyApprove actor now r).id = r.id := rfl

lemma applyDeny_id (actor : Option Nat) (now : Nat) (r : VisitorRequest) :
    (applyDeny actor now r).id = r.id := rfl

lemma applyEntry_id (now : Nat) (r : VisitorRequest) :
    (applyEntry now r).id = r.id := rfl

/-- When no stored request has the id, the UPDATE matches nothing: the route
returns 404 and the store is untouched. -/
lemma sqlUpdateById_notFound (f : VisitorRequest → VisitorRequest)
    (hid : ∀ r, (f r).id = r.id) (db : DB) (id : Nat)
    (h : ∀ r ∈ db.visitor_requests, r.id ≠ id) :
    sqlUpdateById f db id = (.notFound "Request not found", db) := by
  unfold sqlUpdateById updatedTable
  have hfil : (db.visitor_requests.map
      (fun r => if r.id == id then f r else r)).filter
      (fun r => r.id == id) = [] := by
    refine List.filter_eq_nil_iff.mpr ?_
    intro a ha
    rcases List.mem_map.mp ha with ⟨r, hr, rfl⟩
    by_cases hc : r.id = id
    · exact absurd hc (h r hr)
    · simp only [beq_iff_eq]
      split
      · rw [hid]; exact hc
      · exact hc
  simp only [hfil]

/-- When some stored request has the id, the route updates it in place:
the rewritten row `f r` is in the new table and the response is a 200. -/
lemma sqlUpdateById_mem (f : VisitorRequest → VisitorRequest)
    (hid : ∀ r, (f r).id = r.id) (db : DB) (id : Nat)
    (r : VisitorRequest) (hr : r ∈ db.visitor_requests) (hrid : r.id = id) :
    f r ∈ (sqlUpdateById f db id).2.visitor_requests ∧
      (sqlUpdateById f db id).1.isOk = true := by
  unfold sqlUpdateById updatedTable
  have hmem : f r ∈ db.visitor_requests.map
      (fun x => if x.id == id then f x else x) := by
    refine List.mem_map.mpr ⟨r, hr, ?_⟩
    simp [hrid]
  have hne : (db.visitor_requests.map
      (fun x => if x.id == id then f x else x)).filter
      (fun x => x.id == id) ≠ [] := by
    intro hnil
    have := List.filter_eq_nil_iff.mp hnil _ hmem
    simp [hid, hrid] at this
  split
  · exact absurd (by assumption) hne
  · exact ⟨hmem, rfl⟩

/-- Any row of the updated table is either an untouched old row or the
rewrite of an old row carrying the targeted id. -/
lemma sqlUpdateById_mem_cases (f : VisitorRequest → VisitorRequest)
    (db : DB) (id : Nat) (r' : VisitorRequest)
    (h : r' ∈ (sqlUpdateById f db id).2.visitor_requests) :
    ∃ r ∈ db.visitor_requests, r' = r ∨ (r.id = id ∧ r' = f r) := by
  unfold sqlUpdateById updatedTable at h
  split at h
  · exact ⟨r', h, Or.inl rfl⟩
  · simp only at h
    rcases List.mem_map.mp h with ⟨r, hr, rfl⟩
    by_cases hc : r.id = id
    · exact ⟨r, hr, Or.inr ⟨hc, by simp [hc]⟩⟩
    · exact ⟨r, hr, Or.inl (by simp [hc])⟩

/-- A row of the store after a submit is an old row or the freshly inserted
pending row, which carries no approval/denial timestamps. -/
lemma mem_postVisitorRequests (db : DB) (b : SubmitBody) (now : Nat)
    (r' : VisitorRequest)
    (h : r' ∈ ((postVisitorRequests db b now).2).visitor_requests) :
    r' ∈ db.visitor_requests ∨
      (r'.approved_at = none ∧ r'.denied_at = none) := by
  unfold postVisitorRequests at h
  split at h
  · exact Or.inl h
  · split at h
    · exact Or.inl h
    · rcases List.mem_append.mp h with h' | h'
      · exact Or.inl h'
      · rcases List.mem_singleton.mp h' with rfl
        exact Or.inr ⟨rfl, rfl⟩

lemma containsApprove_cons (o : Op) (ops : List Op) (id : Nat) :
    containsApprove (o :: ops) id =
      ((match o with | .approve i _ _ => i == id | _ => false) ||
        containsApprove ops id) := by
  simp [containsApprove, List.any_cons]

lemma containsDeny_cons (o : Op) (ops : List Op) (id : Nat) :
    containsDeny (o :: ops) id =
      ((match o with | .deny i _ _ => i == id | _ => false) ||
        containsDeny ops id) := by
  simp [containsDeny, List.any_cons]

/-- Timestamp-exclusivity invariant, strengthened for list induction: if no
request in the store already has both timestamps, the approve/deny calls
still ahead never target a request that already carries the opposite
timestamp, and the remaining operations never both approve and deny one id,
then no request of the final store carries both timestamps. -/
lemma approveDeny_invariant (ops : List Op) :
    ∀ db : DB,
    (∀ r ∈ db.visitor_requests,
        ¬(r.approved_at.isSome = true ∧ r.denied_at.isSome = true)) →
    (∀ r ∈ db.visitor_requests,
        r.approved_at.isSome = true → containsDeny ops r.id = false) →
    (∀ r ∈ db.visitor_requests,
        r.denied_at.isSome = true → containsApprove ops r.id = false) →
    (∀ id, ¬(containsApprove ops id = true ∧ containsDeny ops id = true)) →
    ∀ r ∈ (applyOps db ops).visitor_requests,
      ¬(r.approved_at.isSome = true ∧ r.denied_at.isSome = true) := by
  induction ops with
  | nil => intro db h1 _ _ _; exact h1
  | cons op ops ih =>
    intro db h1 h2 h3 h4
    show ∀ r ∈ (applyOps (applyOp db op) ops).visitor_requests, _
    cases op with
    | submit b now =>
      refine ih _ ?_ ?_ ?_ ?_
      · intro r hr
        rcases mem_postVisitorRequests db b now r hr with h | h
        · exact h1 r h
        · simp [h.1]
      · intro r hr ha
        rcases mem_postVisitorRequests db b now r hr with h | h
        · have := h2 r h ha
          rw [containsDeny_cons] at this
          exact (Bool.or_eq_false_iff.mp this).2
        · simp [h.1] at ha
      · intro r hr hd
        rcases mem_postVisitorRequests db b now r hr with h | h
        · have := h3 r h hd
          rw [containsApprove_cons] at this
          exact (Bool.or_eq_false_iff.mp this).2
        · simp [h.2] at hd
      · intro id hid
        refine h4 id ⟨?_, ?_⟩
        · rw [containsApprove_cons]; simp [hid.1]
        · rw [containsDeny_cons]; simp [hid.2]
    | approve tid actor now =>
      refine ih _ ?_ ?_ ?_ ?_
      · intro r' hr'
        rw [show applyOp db (.approve tid actor now) =
              (sqlUpdateById (applyApprove actor now) db tid).2 from
            congrArg Prod.snd (approveRoute_eq db tid actor now)] at hr'
        rcases sqlUpdateById_mem_cases _ db tid r' hr' with ⟨r, hr, h | h⟩
        · exact h.symm ▸ h1 r hr
        · rcases h with ⟨hid, rfl⟩
          intro hboth
          have hd : r.denied_at.isSome = true := by
            simpa [applyApprove] using hboth.2
          have := h3 r hr hd
          rw [containsApprove_cons, hid] at this
          simp at this
      · intro r' hr' ha
        rw [show applyOp db (.approve tid actor now) =
              (sqlUpdateById (applyApprove actor now) db tid).2 from
            congrArg Prod.snd (approveRoute_eq db tid actor now)] at hr'
        rcases sqlUpdateById_mem_cases _ db tid r' hr' with ⟨r, hr, h | h⟩
        · subst h
          have := h2 r' hr ha
          rw [containsDeny_cons] at this
          exact (Bool.or_eq_false_iff.mp this).2
        · rcases h with ⟨hid, rfl⟩
          have hca : containsApprove (Op.approve tid actor now :: ops) tid
              = true := by
            rw [containsApprove_cons]; simp
          have hcd : containsDeny (Op.approve tid actor now :: ops) tid
              = false := by
            by_contra hcd
            exact h4 tid ⟨hca, Bool.of_not_eq_false hcd⟩
          rw [containsDeny_cons] at hcd
          have := (Bool.or_eq_false_iff.mp hcd).2
          simpa [applyApprove, hid] using this
      · intro r' hr' hd
        rw [show applyOp db (.approve tid actor now) =
              (sqlUpdateById (applyApprove actor now) db tid).2 from
            congrArg Prod.snd (approveRoute_eq db tid actor now)] at hr'
        rcases sqlUpdateById_mem_cases _ db tid r' hr' with ⟨r, hr, h | h⟩
        · subst h
          have := h3 r' hr hd
          rw [containsApprove_cons] at this
          exact (Bool.or_eq_false_iff.mp this).2
        · rcases h with ⟨hid, rfl⟩
          have hd' : r.denied_at.isSome = true := by
            simpa [applyApprove] using hd
          have := h3 r hr hd'
          rw [containsApprove_cons, hid] at this
          simp at this
      · intro id hid
        refine h4 id ⟨?_, ?_⟩
        · rw [containsApprove_cons]; simp [hid.1]
        · rw [containsDeny_cons]; simp [hid.2]
    | deny tid actor now =>
      refine ih _ ?_ ?_ ?_ ?_
      · intro r' hr'
        rw [show applyOp db (.deny tid actor now) =
              (sqlUpdateById (applyDeny actor now) db tid).2 from
            congrArg Prod.snd (denyRoute_eq db tid actor now)] at hr'
        rcases sqlUpdateById_mem_cases _ db tid r' hr' with ⟨r, hr, h | h⟩
        · exact h.symm ▸ h1 r hr
        · rcases h with ⟨hid, rfl⟩
          intro hboth
          have ha : r.approved_at.isSome = true := by
            simpa [applyDeny] using hboth.1
          have := h2 r hr ha
          rw [containsDeny_cons, hid] at this
          simp at this
      · intro r' hr' ha
        rw [show applyOp db (.deny tid actor now) =
              (sqlUpdateById (applyDeny actor now) db tid).2 from
            congrArg Prod.snd (denyRoute_eq db tid actor now)] at hr'
        rcases sqlUpdateById_mem_cases _ db tid r' hr' with ⟨r, hr, h | h⟩
        · subst h
          have := h2 r' hr ha
          rw [containsDeny_cons] at this
          exact (Bool.or_eq_false_iff.mp this).2
        · rcases h with ⟨hid, rfl⟩
          have ha' : r.approved_at.isSome = true := by
            simpa [applyDeny] using ha
          have := h2 r hr ha'
          rw [containsDeny_cons, hid] at this
          simp at this
      · intro r' hr' hd
        rw [show applyOp db (.deny tid actor now) =
              (sqlUpdateById (applyDeny actor now) db tid).2 from
            congrArg Prod.snd (denyRoute_eq db tid actor now)] at hr'
        rcases sqlUpdateById_mem_cases _ db tid r' hr' with ⟨r, hr, h | h⟩
        · subst h
          have := h3 r' hr hd
          rw [containsApprove_cons] at this
          exact (Bool.or_eq_false_iff.mp this).2
        · rcases h with ⟨hid, rfl⟩
          have hcd : containsDeny (Op.deny tid actor now :: ops) tid
              = true := by
            rw [containsDeny_cons]; simp
          have hca : containsApprove (Op.deny tid actor now :: ops) tid
              = false := by
            by_contra hca
            exact h4 tid ⟨Bool.of_not_eq_false hca, hcd⟩
          rw [containsApprove_cons] at hca
          have := (Bool.or_eq_false_iff.mp hca).2
          simpa [applyDeny, hid] using this
      · intro id hid
        refine h4 id ⟨?_, ?_⟩
        · rw [containsApprove_cons]; simp [hid.1]
        · rw [containsDeny_cons]; simp [hid.2]
    | entry tid now =>
      refine ih _ ?_ ?_ ?_ ?_
      · intro r' hr'
        rw [show applyOp db (.entry tid now) =
              (sqlUpdateById (applyEntry now) db tid).2 from
            congrArg Prod.snd (entryRoute_eq db tid now)] at hr'
        rcases sqlUpdateById_mem_cases _ db tid r' hr' with ⟨r, hr, h | h⟩
        · exact h.symm ▸ h1 r hr
        · rcases h with ⟨_, rfl⟩
          intro hboth
          exact h1 r hr (by simpa [applyEntry] using hboth)
      · intro r' hr' ha
        rw [show applyOp db (.entry tid now) =
              (sqlUpdateById (applyEntry now) db tid).2 from
            congrArg Prod.snd (entryRoute_eq db tid now)] at hr'
        rcases sqlUpdateById_mem_cases _ db tid r' hr' with ⟨r, hr, h | h⟩
        · subst h
          have := h2 r' hr ha
          rw [containsDeny_cons] at this
          exact (Bool.or_eq_false_iff.mp this).2
        · rcases h with ⟨hid, rfl⟩
          have ha' : r.approved_at.isSome = true := by
            simpa [applyEntry] using ha
          have := h2 r hr ha'
          rw [containsDeny_cons] at this
          simpa [applyEntry, hid] using (Bool.or_eq_false_iff.mp this).2
      · intro r' hr' hd
        rw [show applyOp db (.entry tid now) =
              (sqlUpdateById (applyEntry now) db tid).2 from
            congrArg Prod.snd (entryRoute_eq db tid now)] at hr'
        rcases sqlUpdateById_mem_cases _ db tid r' hr' with ⟨r, hr, h | h⟩
        · subst h
          have := h3 r' hr hd
          rw [containsApprove_cons] at this
          exact (Bool.or_eq_false_iff.mp this).2
        · rcases h with ⟨hid, rfl⟩
          have hd' : r.denied_at.isSome = true := by
            simpa [applyEntry] using hd
          have := h3 r hr hd'
          rw [containsApprove_cons] at this
          simpa [applyEntry, hid] using (Bool.or_eq_false_iff.mp this).2
      · intro id hid
        refine h4 id ⟨?_, ?_⟩
        · rw [containsApprove_cons]; simp [hid.1]
        · rw [containsDeny_cons]; simp [hid.2]

/-! ## Concrete fixtures

A one-flat store and the scenario request of spec §8.7 ("Jane Doe",
flat B203, purpose Delivery), used by the concrete counterexamples and
witnesses below. -/

def flatB203 : Flat :=
  { id := 1, wing := "B", flat_number := 203, flat_code := "B203" }

def dbB : DB :=
  { flats := [flatB203], residents := [], visitor_requests := [],
    nextResidentId := 0, nextRequestId := 0 }

def bodyJane : SubmitBody :=
  { visitor_name := "Jane Doe", vehicle_type := none, vehicle_number := none,
    purpose := "Delivery", flatCode := "B203",
    photo_url := "data-url-jane", guard_id := "guard-1" }

/-- The row created by submitting `bodyJane` into `dbB` at time 10. -/
def janeReq : VisitorRequest :=
  { id := 0, guard_id := "guard-1", flat_id := 1, visitor_name := "Jane Doe",
    photo_url := "data-url-jane", vehicle_number := none,
    vehicle_type := none, purpose := "Delivery", status := "pending",
    entry_time := none, approved_by := none, approved_at := none,
    denied_at := none, denied_by := none, created_at := 10,
    updated_at := 10 }

/-- The store after that submission: one pending request. -/
def dbJane : DB :=
  { flats := [flatB203], residents := [], visitor_requests := [janeReq],
    nextResidentId := 0, nextRequestId := 1 }

/-! ## Claim C1 -/

/-- Claim C1 as stated is false on the code: the approve and deny routes
update by id with no condition on the current status, and neither clears the
other's timestamp. Submitting a request, approving it at time 11, then
denying it at time 12 reaches a state whose request carries BOTH
approved_at and denied_at non-null. -/
theorem c1_counterexample :
    ∃ r ∈ (applyOps dbB
        [.submit bodyJane 10, .approve 0 (some 7) 11,
         .deny 0 (some 7) 12]).visitor_requests,
      r.approved_at.isSome = true ∧ r.denied_at.isSome = true := by
  decide

/-- Claim C1, amended: starting from a store with no visitor requests, a
request never carries both approved_at and denied_at non-null PROVIDED the
operation sequence never applies both an approve and a deny to the same
request id; the unconditional routes make the invariant fail as soon as one
request receives both calls, since neither route clears the other's
timestamp. -/
theorem c1_theorem (db : DB) (ops : List Op)
    (hinit : db.visitor_requests = [])
    (hsep : ∀ id, ¬(containsApprove ops id = true ∧
        containsDeny ops id = true)) :
    ∀ r ∈ (applyOps db ops).visitor_requests,
      ¬(r.approved_at.isSome = true ∧ r.denied_at.isSome = true) := by
  refine approveDeny_invariant ops db ?_ ?_ ?_ hsep <;> simp [hinit]

/-- The request reached by submit, approve, allow-entry in the C1 witness
scenario. -/
def c1FinalReq : VisitorRequest :=
  { janeReq with status := "completed", approved_at := some 11,
                 approved_by := some 7, entry_time := some 20,
                 updated_at := 20 }

theorem c1_witness :
    ¬(c1FinalReq.approved_at.isSome = true ∧
      c1FinalReq.denied_at.isSome = true) :=
  c1_theorem dbB [.submit bodyJane 10, .approve 0 (some 7) 11, .entry 0 20]
    rfl (fun _ h => nomatch h.2) c1FinalReq (by decide)

/-! ## Claim C2 -/

/-- Claim C2 as stated is false on the code: the entry route's UPDATE has no
status condition, so allow-entry on a request that is still `pending`
succeeds (200, entry_time stamped, status forced to 'completed') instead of
being a NotFound/InvalidTransition no-op, and a second allow-entry call
overwrites entry_time (20 becomes 30). -/
theorem c2_counterexample :
    (entryRoute dbJane 0 20).1.isOk = true ∧
    (∃ r ∈ (entryRoute dbJane 0 20).2.visitor_requests,
        r.id = 0 ∧ r.status = "completed" ∧ r.entry_time = some 20) ∧
    (∃ r ∈ (entryRoute (entryRoute dbJane 0 20).2 0 30).2.visitor_requests,
        r.id = 0 ∧ r.entry_time = some 30) := by
  decide

/-- Claim C2, amended: markEntry succeeds on ANY request id present in the
store, regardless of its current status (`pending` and `denied` included),
stamping `entry_time := now` and `status := 'completed'`; a repeated call
re-stamps entry_time with the later time; only an id absent from the store
yields NotFound, in which case the store is unchanged. -/
theorem c2_theorem (db : DB) (id now : Nat) :
    ((∀ r ∈ db.visitor_requests, r.id ≠ id) →
        entryRoute db id now = (.notFound "Request not found", db)) ∧
    (∀ r ∈ db.visitor_requests, r.id = id →
        applyEntry now r ∈ (entryRoute db id now).2.visitor_requests ∧
        (entryRoute db id now).1.isOk = true ∧
        (applyEntry now r).entry_time = some now ∧
        (applyEntry now r).status = "completed") := by
  constructor
  · intro h
    rw [entryRoute_eq]
    exact sqlUpdateById_notFound _ (applyEntry_id now) db id h
  · intro r hr hrid
    rcases sqlUpdateById_mem (applyEntry now) (applyEntry_id now)
        db id r hr hrid with ⟨hmem, hok⟩
    rw [entryRoute_eq]
    exact ⟨hmem, hok, rfl, rfl⟩

theorem c2_witness :
    entryRoute dbJane 99 20 = (.notFound "Request not found", dbJane) ∧
    applyEntry 20 janeReq ∈ (entryRoute dbJane 0 20).2.visitor_requests :=
  ⟨(c2_theorem dbJane 99 20).1 (by decide),
   ((c2_theorem dbJane 0 20).2 janeReq (by decide) rfl).1⟩

/-! ## Claim C3 -/

/-- The store after approving Jane's request at time 11 by resident 7. -/
def dbJaneApproved : DB := (approveRoute dbJane 0 (some 7) 11).2

/-- Claim C3 as stated is false on the code: a second approve on an
already-approved request is NOT a no-op — the unconditional UPDATE succeeds
again and silently overwrites approved_at (11 becomes 13) and approved_by
(7 becomes 8). -/
theorem c3_counterexample :
    (∃ r ∈ dbJaneApproved.visitor_requests,
        r.id = 0 ∧ r.status = "approved" ∧ r.approved_at = some 11 ∧
        r.approved_by = some 7) ∧
    (approveRoute dbJaneApproved 0 (some 8) 13).1.isOk = true ∧
    (∃ r ∈ (approveRoute dbJaneApproved 0 (some 8) 13).2.visitor_requests,
        r.id = 0 ∧ r.approved_at = some 13 ∧ r.approved_by = some 8) := by
  decide

/-- Claim C3, amended: the approve and deny routes succeed on ANY request id
present in the store regardless of its current status, unconditionally
rewriting status and the corresponding timestamp/actor columns (so repeated
or crossed calls DO overwrite approved_at/denied_at/approver fields); only
an id absent from the store yields NotFound, and only then is the store
left unchanged. -/
theorem c3_theorem (db : DB) (id : Nat) (actor : Option Nat) (now : Nat) :
    ((∀ r ∈ db.visitor_requests, r.id ≠ id) →
        approveRoute db id actor now = (.notFound "Request not found", db) ∧
        denyRoute db id actor now = (.notFound "Request not found", db)) ∧
    (∀ r ∈ db.visitor_requests, r.id = id →
        applyApprove actor now r ∈
          (approveRoute db id actor now).2.visitor_requests ∧
        (approveRoute db id actor now).1.isOk = true ∧
        (applyApprove actor now r).approved_at = some now ∧
        applyDeny actor now r ∈
          (denyRoute db id actor now).2.visitor_requests ∧
        (denyRoute db id actor now).1.isOk = true ∧
        (applyDeny actor now r).denied_at = some now) := by
  constructor
  · intro h
    constructor
    · rw [approveRoute_eq]
      exact sqlUpdateById_notFound _ (applyApprove_id actor now) db id h
    · rw [denyRoute_eq]
      exact sqlUpdateById_notFound _ (applyDeny_id actor now) db id h
  · intro r hr hrid
    rcases sqlUpdateById_mem (applyApprove actor now)
        (applyApprove_id actor now) db id r hr hrid with ⟨hma, hoka⟩
    rcases sqlUpdateById_mem (applyDeny actor now)
        (applyDeny_id actor now) db id r hr hrid with ⟨hmd, hokd⟩
    rw [approveRoute_eq, denyRoute_eq]
    exact ⟨hma, hoka, rfl, hmd, hokd, rfl⟩

theorem c3_witness :
    approveRoute dbJane 42 (some 7) 11 =
      (.notFound "Request not found", dbJane) ∧
    applyApprove (some 8) 13 janeReq ∈
      (approveRoute dbJane 0 (some 8) 13).2.visitor_requests :=
  ⟨((c3_theorem dbJane 42 (some 7) 11).1 (by decide)).1,
   ((c3_theorem dbJane 0 (some 8) 13).2 janeReq (by decide) rfl).1⟩

/-! ## Claim C9 -/

/-- Claim C9: approving an id that is absent from the store (for example one
already deleted by the retention sweep) returns the route's 404
"Request not found" response and leaves the store — in particular every
stored request — unchanged; no exception escapes the route. -/
theorem c9_theorem (db : DB) (id : Nat) (actor : Option Nat) (now : Nat)
    (h : ∀ r ∈ db.visitor_requests, r.id ≠ id) :
    approveRoute db id actor now = (.notFound "Request not found", db) := by
  rw [approveRoute_eq]
  exact sqlUpdateById_notFound _ (applyApprove_id actor now) db id h

theorem c9_witness :
    approveRoute dbJane 99 (some 7) 30 =
      (.notFound "Request not found", dbJane) :=
  c9_theorem dbJane 99 (some 7) 30 (by decide)

/-! ## Claim C6 -/

/-- The number of NULL columns among approved_at / denied_at / entry_time —
formalizes the spec's phrase "exactly one of approved_at/denied_at/entry_time
set to null" (that phrase holds of a row exactly when this count is 1). -/
def specNullTimestampCount (r : VisitorRequest) : Nat :=
  (if r.approved_at = none then 1 else 0) +
  (if r.denied_at = none then 1 else 0) +
  (if r.entry_time = none then 1 else 0)

/-- Claim C6 as stated is false on the code: a valid submission does create
a `pending` request, but ALL THREE of approved_at / denied_at / entry_time
are null on it, so "exactly one of approved_at/denied_at/entry_time set to
null" (the count is 3, not 1) fails on every freshly created request. -/
theorem c6_counterexample :
    postVisitorRequests dbB bodyJane 10 = (.ok janeReq, dbJane) ∧
    janeReq.status = "pending" ∧
    specNullTimestampCount janeReq ≠ 1 := by
  decide

/-- Claim C6, amended: every submission with a non-empty visitor name, a
resolvable (non-empty) flat code and a photo present creates a request with
status `pending` and ALL of approved_at / denied_at / entry_time null, and
appends exactly that row to the store; every submission missing the name,
flat code or photo, or whose flat code resolves to no flat, fails with a
400 validation error and leaves the store unchanged. -/
theorem c6_theorem (db : DB) (b : SubmitBody) (now : Nat) :
    (∀ flat : Flat,
      (b.visitor_name == "") = false → (b.flatCode == "") = false →
      (b.photo_url == "") = false →
      findFlatByCode db b.flatCode = some flat →
      postVisitorRequests db b now =
        (.ok (insertedRow db b flat now),
          { db with
              visitor_requests :=
                db.visitor_requests ++ [insertedRow db b flat now]
              nextRequestId := db.nextRequestId + 1 }) ∧
      (insertedRow db b flat now).status = "pending" ∧
      (insertedRow db b flat now).approved_at = none ∧
      (insertedRow db b flat now).denied_at = none ∧
      (insertedRow db b flat now).entry_time = none) ∧
    ((b.visitor_name == "") = true ∨ (b.flatCode == "") = true ∨
        (b.photo_url == "") = true ∨ findFlatByCode db b.flatCode = none →
      (postVisitorRequests db b now).1.isOk = false ∧
      (postVisitorRequests db b now).2 = db) := by
  constructor
  · intro flat hname hflat hphoto hresolve
    refine ⟨?_, rfl, rfl, rfl, rfl⟩
    unfold postVisitorRequests
    rw [hname, hflat, hphoto, hresolve]
    rfl
  · intro hval
    unfold postVisitorRequests
    split
    · exact ⟨rfl, rfl⟩
    · rename_i hcond
      rcases hval with h | h | h | h
      · exact absurd (by simp [h]) hcond
      · exact absurd (by simp [h]) hcond
      · exact absurd (by simp [h]) hcond
      · rw [h]
        exact ⟨rfl, rfl⟩

theorem c6_witness :
    (insertedRow dbB bodyJane flatB203 10).status = "pending" ∧
    (insertedRow dbB bodyJane flatB203 10).approved_at = none ∧
    (insertedRow dbB bodyJane flatB203 10).denied_at = none ∧
    (insertedRow dbB bodyJane flatB203 10).entry_time = none ∧
    (postVisitorRequests dbB { bodyJane with visitor_name := "" } 10).2 =
      dbB := by
  have hA := (c6_theorem dbB bodyJane 10).1 flatB203
    (by decide) (by decide) (by decide) (by decide)
  have hB := (c6_theorem dbB { bodyJane with visitor_name := "" } 10).2
    (Or.inl (by decide))
  exact ⟨hA.2.1, hA.2.2.1, hA.2.2.2.1, hA.2.2.2.2, hB.2⟩

/-! ## Client fixtures -/

/-- The payload Jane's submission would queue while offline. -/
def qJane : RequestData :=
  { visitor_name := "Jane Doe", vehicle_type := none, vehicle_number := none,
    purpose := "Delivery", flat_id := 1, photo_url := "data-url-jane",
    status := "pending", guard_id := "guard-1" }

/-- Guard form filled in for Jane's visit. -/
def formJane : FormState :=
  { visitorName := "Jane Doe", vehicleType := "", vehicleNumber := "",
    purposeOfVisit := "Delivery", flatSelect := "B203" }

/-- A disconnected client with Jane's form filled in and a photo captured. -/
def offlineClient : ClientState :=
  { isOnline := false, offlineQueue := [],
    storage := { visitorAppOfflineQueue := none },
    currentPhoto := some "data-url-jane", form := formJane,
    flatsList := [flatB203], dbFlats := [flatB203], dbRequests := [] }

/-- The same client, connected. -/
def onlineClient : ClientState := { offlineClient with isOnline := true }

/-! ## Claim C4 -/

/-- A connected client whose offline queue holds exactly Jane's queued
payload, mirrored in localStorage. -/
def c4Client : ClientState :=
  { isOnline := true, offlineQueue := [qJane],
    storage := { visitorAppOfflineQueue := some [qJane] },
    currentPhoto := none, form := emptyForm, flatsList := [flatB203],
    dbFlats := [flatB203], dbRequests := [] }

/-- Claim C4 is the spec's intent, but the code violates it: draining the
queue when the single item's persistence attempt fails
(the gateway, modelled by `fun _ => false`, rejects it) still removes the
item from the in-memory queue AND deletes the `visitorAppOfflineQueue`
localStorage key, while persisting nothing — the item does not remain for
the next drain attempt, it is lost. -/
theorem c4_code_behavior :
    processOfflineQueue c4Client (fun _ => false) =
      { c4Client with
          offlineQueue := []
          storage := { visitorAppOfflineQueue := none } } ∧
    (processOfflineQueue c4Client (fun _ => false)).dbRequests = [] := by
  constructor <;> rfl

/-! ## Claim C5 -/

/-- Claim C5 is the spec's intent, but the code violates it: with a
non-empty queue persisted under `visitorAppOfflineQueue`, the freshly
constructed application state still has an EMPTY in-memory queue — the
constructor hard-codes `offlineQueue = []` and no code path ever reads the
key back, so the store-then-restart round-trip is not the identity. -/
theorem c5_code_behavior :
    (newAppState { visitorAppOfflineQueue := some [qJane] } true).storage
        = { visitorAppOfflineQueue := some [qJane] } ∧
    (newAppState { visitorAppOfflineQueue := some [qJane] } true).offlineQueue
        = [] ∧
    (newAppState { visitorAppOfflineQueue := some [qJane] } true).offlineQueue
        ≠ [qJane] := by
  refine ⟨rfl, rfl, ?_⟩
  decide

/-! ## Claim C7 -/

/-- Claim C7: a submission made while disconnected (with valid name, photo
and a flat code resolvable in the cached flats list) reports "queued" — not
"sent" —, appends exactly one payload to the offline queue (and to its
localStorage copy) while persisting nothing to the gateway; the
reconnect-triggered drain (when the gateway accepts the inserts) then
empties the queue, clears the localStorage key, and persists the queued
payload. -/
theorem c7_theorem (s : ClientState) (g : Bool) (ok : RequestData → Bool)
    (flat : Flat)
    (hoff : s.isOnline = false)
    (hname : (jsTrim s.form.visitorName == "") = false)
    (hflat : (s.form.flatSelect == "") = false)
    (hphoto : photoFalsy s.currentPhoto = false)
    (hresolve : s.flatsList.find?
        (fun f => f.flat_code == s.form.flatSelect) = some flat)
    (hok : ∀ d, ok d = true) :
    (submitVisitorRequest s g).1 = .queued ∧
    (submitVisitorRequest s g).2.offlineQueue =
      s.offlineQueue ++ [builtRequestData s flat] ∧
    (submitVisitorRequest s g).2.storage.visitorAppOfflineQueue =
      some (s.offlineQueue ++ [builtRequestData s flat]) ∧
    (submitVisitorRequest s g).2.dbRequests = s.dbRequests ∧
    (handleOnlineEvent (submitVisitorRequest s g).2 ok).offlineQueue = [] ∧
    (handleOnlineEvent (submitVisitorRequest s g).2 ok).storage = ⟨none⟩ ∧
    (handleOnlineEvent (submitVisitorRequest s g).2 ok).dbRequests =
      s.dbRequests ++ (s.offlineQueue ++ [builtRequestData s flat]) ∧
    builtRequestData s flat ∈
      (handleOnlineEvent (submitVisitorRequest s g).2 ok).dbRequests := by
  have hsub : submitVisitorRequest s g =
      (.queued, { s with
          offlineQueue := s.offlineQueue ++ [builtRequestData s flat]
          storage := ⟨some (s.offlineQueue ++ [builtRequestData s flat])⟩
          currentPhoto := none
          form := emptyForm }) := by
    unfold submitVisitorRequest getFlatByCode
    rw [hname, hflat, hphoto, hoff, hresolve]
    rfl
  have hne : (s.offlineQueue ++ [builtRequestData s flat]).isEmpty
      = false := by
    cases s.offlineQueue <;> rfl
  have hfil : (s.offlineQueue ++ [builtRequestData s flat]).filter ok =
      s.offlineQueue ++ [builtRequestData s flat] :=
    List.filter_eq_self.mpr (fun a _ => hok a)
  have hdrain : handleOnlineEvent (submitVisitorRequest s g).2 ok =
      { s with
          isOnline := true
          offlineQueue := []
          storage := ⟨none⟩
          currentPhoto := none
          form := emptyForm
          dbRequests :=
            s.dbRequests ++ (s.offlineQueue ++ [builtRequestData s flat]) } := by
    rw [hsub]
    unfold handleOnlineEvent processOfflineQueue
    simp only [hne, hfil, Bool.not_true, Bool.false_or]
    rfl
  refine ⟨by rw [hsub], by rw [hsub], by rw [hsub], by rw [hsub],
    by rw [hdrain], by rw [hdrain], by rw [hdrain], ?_⟩
  rw [hdrain]
  simp

theorem c7_witness :
    (submitVisitorRequest offlineClient true).1 = .queued ∧
    (submitVisitorRequest offlineClient true).2.offlineQueue =
      [builtRequestData offlineClient flatB203] ∧
    (handleOnlineEvent (submitVisitorRequest offlineClient true).2
        (fun _ => true)).offlineQueue = [] ∧
    builtRequestData offlineClient flatB203 ∈
      (handleOnlineEvent (submitVisitorRequest offlineClient true).2
        (fun _ => true)).dbRequests := by
  have h := c7_theorem offlineClient true (fun _ => true) flatB203
    rfl (by decide) (by decide) (by decide) (by decide) (fun _ => rfl)
  exact ⟨h.1, h.2.1, h.2.2.2.2.1, h.2.2.2.2.2.2.2⟩

/-! ## Claim C10 -/

/-- Claim C10: submission is atomic with respect to the guard's form state —
whenever `submitVisitorRequest` reports an error (missing name/flat, missing
photo, unresolvable flat, or a gateway failure), the client state (form
fields, captured photo, queue, storage, store) is left exactly as it was;
the form is reset and the photo dropped only when the request was
successfully persisted ("sent") or successfully enqueued offline
("queued"). -/
theorem c10_theorem (s : ClientState) (g : Bool) :
    (∀ msg, (submitVisitorRequest s g).1 = .error msg →
        (submitVisitorRequest s g).2 = s) ∧
    ((submitVisitorRequest s g).1 = .sent ∨
        (submitVisitorRequest s g).1 = .queued →
      (submitVisitorRequest s g).2.form = emptyForm ∧
      (submitVisitorRequest s g).2.currentPhoto = none) := by
  unfold submitVisitorRequest
  split
  · exact ⟨fun _ _ => rfl, fun h => h.elim (fun h => nomatch h)
      (fun h => nomatch h)⟩
  · split
    · exact ⟨fun _ _ => rfl, fun h => h.elim (fun h => nomatch h)
        (fun h => nomatch h)⟩
    · split
      · exact ⟨fun _ _ => rfl, fun h => h.elim (fun h => nomatch h)
          (fun h => nomatch h)⟩
      · split
        · split
          · exact ⟨fun _ h => (nomatch h), fun _ => ⟨rfl, rfl⟩⟩
          · exact ⟨fun _ _ => rfl, fun h => h.elim (fun h => nomatch h)
              (fun h => nomatch h)⟩
        · exact ⟨fun _ h => (nomatch h), fun _ => ⟨rfl, rfl⟩⟩

/-- A client whose form is missing the visitor name (photo captured):
submission must fail without touching the state. -/
def c10ErrClient : ClientState :=
  { onlineClient with form := { formJane with visitorName := "" } }

theorem c10_witness :
    (submitVisitorRequest c10ErrClient true).2 = c10ErrClient ∧
    (submitVisitorRequest onlineClient true).2.form = emptyForm ∧
    (submitVisitorRequest onlineClient true).2.currentPhoto = none := by
  have h1 := (c10_theorem c10ErrClient true).1
    "Please fill all required fields" (by decide)
  have h2 := (c10_theorem onlineClient true).2 (Or.inl (by decide))
  exact ⟨h1, h2.1, h2.2⟩

/-! ## Claim C8 -/

/-- One call to `POST /api/residents/auth`: the registration/login data. -/
structure AuthOp where
  phone : String
  email : String
  flatCode : String
  now : Nat
deriving DecidableEq, Repr

/-- Store effect of one auth call. -/
def applyAuth (db : DB) (o : AuthOp) : DB :=
  (postResidentsAuth db o.phone o.email o.flatCode o.now).2

/-- Store effect of a sequence of auth calls, applied left to right. -/
def applyAuths (db : DB) : List AuthOp → DB
  | [] => db
  | o :: os => applyAuths (applyAuth db o) os

/-- Number of resident rows carrying a given phone. -/
def countPhone (db : DB) (p : String) : Nat :=
  db.residents.countP (fun r => r.phone == p)

lemma countP_map_phone_eq (g : Resident → Resident)
    (hg : ∀ r, (g r).phone = r.phone) (l : List Resident) (p : String) :
    (l.map g).countP (fun r => r.phone == p) =
      l.countP (fun r => r.phone == p) := by
  induction l with
  | nil => rfl
  | cons a t ih => simp [List.countP_cons, ih, hg]

lemma find?_none_countP_zero (l : List Resident) (p : String)
    (h : l.find? (fun r => r.phone == p) = none) :
    l.countP (fun r => r.phone == p) = 0 := by
  rw [List.countP_eq_zero]
  intro a ha
  simpa using List.find?_eq_none.mp h a ha

lemma find?_map_pres (g : Resident → Resident) (pred : Resident → Bool)
    (hg : ∀ r, pred (g r) = pred r) (l : List Resident) :
    (l.map g).find? pred = (l.find? pred).map g := by
  induction l with
  | nil => rfl
  | cons a t ih =>
    rw [List.map_cons]
    cases hpa : pred a
    · rw [List.find?_cons_of_neg _ (by simp [hg, hpa]),
        List.find?_cons_of_neg _ (by simp [hpa]), ih]
    · rw [List.find?_cons_of_pos _ (show pred (g a) = true by rw [hg, hpa]),
        List.find?_cons_of_pos _ hpa]
      rfl

/-- One auth call preserves "at most one resident row per phone": the
update branch rewrites rows in place without touching phones, and the
insert branch only fires when no row with that phone exists. -/
lemma applyAuth_countPhone_le (db : DB) (o : AuthOp)
    (h : ∀ q, countPhone db q ≤ 1) (q : String) :
    countPhone (applyAuth db o) q ≤ 1 := by
  unfold applyAuth postResidentsAuth
  split
  · exact h q
  · split
    · exact h q
    · split
      · unfold countPhone
        simp only []
        rw [countP_map_phone_eq]
        · exact h q
        · intro r
          dsimp only
          split <;> rfl
      · rename_i hfind
        unfold countPhone
        simp only [List.countP_append]
        by_cases hq : (o.phone == q) = true
        · have hz : db.residents.countP (fun r => r.phone == q) = 0 := by
            have : o.phone = q := by simpa using hq
            subst this
            exact find?_none_countP_zero _ _ hfind
          unfold countPhone at hz
          simp [hz, List.countP_cons, hq]
        · have hq' : (o.phone == q) = false := by
            cases hg : (o.phone == q)
            · rfl
            · exact absurd hg hq
          have := h q
          unfold countPhone at this
          simpa [List.countP_cons, hq'] using this

lemma applyAuths_countPhone_le (os : List AuthOp) :
    ∀ db : DB, (∀ q, countPhone db q ≤ 1) →
      ∀ q, countPhone (applyAuths db os) q ≤ 1 := by
  induction os with
  | nil => intro db h; exact h
  | cons o os ih =>
    intro db h
    exact ih (applyAuth db o) (applyAuth_countPhone_le db o h)

/-- Claim C8: resident identity upsert is idempotent on phone. First, after
any sequence of registrations starting from a store with at most one
resident row per phone, the store still has at most one resident row per
phone. Second, registering a phone that already has a resident row (with a
resolvable flat code and non-empty fields) rewrites that row in place —
same id, new email/flat/last-login — keeps the resident count unchanged,
and returns the updated record; no second resident id is created. -/
theorem c8_theorem :
    (∀ (db : DB) (os : List AuthOp), (∀ q, countPhone db q ≤ 1) →
        ∀ q, countPhone (applyAuths db os) q ≤ 1) ∧
    (∀ (db : DB) (p e fc : String) (t : Nat) (flat : Flat) (r0 : Resident),
        (p == "") = false → (e == "") = false → (fc == "") = false →
        findFlatByCode db fc = some flat →
        db.residents.find? (fun r => r.phone == p) = some r0 →
        (postResidentsAuth db p e fc t).2.residents.length =
            db.residents.length ∧
        (postResidentsAuth db p e fc t).1 =
          .ok { r0 with email := e, flat_id := flat.id,
                        last_login := some t, updated_at := some t } ∧
        ({ r0 with email := e, flat_id := flat.id,
                   last_login := some t, updated_at := some t} : Resident).id
            = r0.id ∧
        (postResidentsAuth db p e fc t).2.residents.find?
            (fun r => r.phone == p) =
          some { r0 with email := e, flat_id := flat.id,
                         last_login := some t, updated_at := some t }) := by
  constructor
  · exact fun db os h q => applyAuths_countPhone_le os db h q
  · intro db p e fc t flat r0 hp he hfc hresolve hfind
    have hr0' := List.find?_some hfind
    have hr0 : (r0.phone == p) = true := by simpa using hr0'
    have hroute : postResidentsAuth db p e fc t =
        (.ok { r0 with email := e, flat_id := flat.id,
                       last_login := some t, updated_at := some t },
          { db with
              residents := db.residents.map (fun r =>
                if r.phone == p then
                  { r with email := e, flat_id := flat.id,
                           last_login := some t, updated_at := some t }
                else r) }) := by
      unfold postResidentsAuth
      rw [hp, he, hfc, hresolve, hfind]
      rfl
    refine ⟨?_, ?_, rfl, ?_⟩
    · rw [hroute]
      exact List.length_map _ _
    · rw [hroute]
    · rw [hroute]
      have := find?_map_pres
        (fun r => if r.phone == p then
            { r with email := e, flat_id := flat.id,
                     last_login := some t, updated_at := some t }
          else r)
        (fun r => r.phone == p)
        (fun r => by dsimp only; split <;> rfl)
        db.residents
      dsimp only at this ⊢
      rw [this, hfind, Option.map_some']
      rw [if_pos hr0]

/-- Second registration for phone 9876543210 with a different email: the
store keeps a single resident row for that phone and the first
registration's resident record (id 0) is updated in place. -/
def firstResident : Resident :=
  { id := 0, phone := "9876543210", email := "a@example.com", flat_id := 1,
    role := "resident", last_login := some 5, updated_at := none }

/-- The store after the first registration of 9876543210 against `dbB`. -/
def dbReg1 : DB :=
  applyAuth dbB { phone := "9876543210", email := "a@example.com",
                  flatCode := "B203", now := 5 }

theorem c8_witness :
    countPhone (applyAuths dbB
      [{ phone := "9876543210", email := "a@example.com",
         flatCode := "B203", now := 5 },
       { phone := "9876543210", email := "b@example.com",
         flatCode := "B203", now := 6 }]) "9876543210" ≤ 1 ∧
    (postResidentsAuth dbReg1 "9876543210" "b@example.com" "B203" 6).2.residents.length = dbReg1.residents.length ∧
    (postResidentsAuth dbReg1 "9876543210" "b@example.com" "B203" 6).1 =
      .ok { firstResident with email := "b@example.com", flat_id := 1,
                               last_login := some 6, updated_at := some 6 } := by
  have hA := c8_theorem.1 dbB
    [{ phone := "9876543210", email := "a@example.com",
       flatCode := "B203", now := 5 },
     { phone := "9876543210", email := "b@example.com",
       flatCode := "B203", now := 6 }]
    (fun q => by simp [countPhone, dbB]) "9876543210"
  have hB := c8_theorem.2 dbReg1 "9876543210" "b@example.com" "B203" 6
    flatB203 firstResident (by decide) (by decide) (by decide)
    (by decide) (by decide)
  exact ⟨hA, hB.1, hB.2.1⟩

end SaiSiliconValley
